import Mathlib

/-!
Verification of the interview orchestration engine of `Virendrabodele/inter`.

The development shallowly embeds the Python backend:
* `src/backend/interview_manager.py` — the per-session state machine
  (`InterviewManager`): `generate_first_question`, `process_answer`,
  `_generate_final_report`, `generate_final_report`, `get_state`;
* `src/backend/llm_engine.py` — the structured-parse / fallback layer of
  `LLMEngine.evaluate_answer` and `LLMEngine.generate_final_feedback`;
* `src/backend/app.py` — the transport-layer payload validation
  (`SubmitAnswerPayload`).

External effects (Gemini calls, JSON-file persistence, Google-Sheets export,
wall-clock reads) are modelled as parameters: each LLM call's outcome is an
`Except` value supplied in an `Env`, `datetime.now()` is an abstract natural
number, and the calls the code makes to its collaborators are recorded in an
explicit trace of `ExtCall`s.  Python dictionaries are association lists of
`String × Val` where a later binding for a key shadows an earlier one, as in
a Python dict literal.
-/

/-- A Python/JSON value as it appears in the dictionaries the backend builds. -/
inductive Val where
  | str : String → Val
  | num : ℚ → Val
  | bool : Bool → Val
  | list : List Val → Val
  | vdict : List (String × Val) → Val
  | null : Val

/-- Lookup in an association list with Python-dict semantics: the LAST binding
of a key wins (a dict literal built left to right overwrites earlier keys). -/
def dget (d : List (String × Val)) (k : String) : Option Val :=
  match d.reverse.find? (fun p => decide (p.1 = k)) with
  | some p => some p.2
  | Option.none => Option.none

/-- `sum(scores) / len(scores) if scores else 0` — arithmetic mean, 0 when empty. -/
def avg (l : List ℚ) : ℚ :=
  if l.isEmpty then 0 else l.sum / l.length

/-- Python `int()` applied to a rational: truncation toward zero. -/
def pyInt (q : ℚ) : ℤ :=
  if q < 0 then -(Int.floor (-q)) else Int.floor q

/-- An evaluation record as `process_answer` consumes it: the `score` key may
be absent (Python `evaluation.get("score", 5)`), the other fields default to
the values `_generate_final_report` would read out with `.get(…, [])`. -/
structure Evaluation where
  score : Option ℚ
  evaluation : String
  strengths : List String
  improvements : List String

/-- The mutable state of one `InterviewManager` (timestamps abstracted to ℕ). -/
structure Session where
  session_id : String
  candidate_name : String
  experience_years : ℕ
  job_description : String
  difficulty : String
  current_question_number : ℕ
  total_questions : ℕ
  questions_asked : List String
  answers_given : List String
  scores : List ℚ
  evaluations : List Evaluation
  interview_started : Bool
  interview_ended : Bool
  started_at : Option ℕ
  ended_at : Option ℕ

/-- `InterviewManager.__init__`: a fresh session, before any question. -/
def initSession (sid jd cn : String) (expYears : ℕ) (diff : String) : Session :=
  { session_id := sid
    candidate_name := cn
    experience_years := expYears
    job_description := jd
    difficulty := diff
    current_question_number := 0
    total_questions := 5
    questions_asked := []
    answers_given := []
    scores := []
    evaluations := []
    interview_started := false
    interview_ended := false
    started_at := Option.none
    ended_at := Option.none }

/-- A call the engine makes to an external collaborator, recorded in order. -/
inductive ExtCall where
  | generateQuestion : ExtCall
  | evaluateAnswer : ExtCall
  | generateFinalFeedback : ExtCall
  | saveAnswer : ExtCall
  | saveInterviewSession : List (String × Val) → ExtCall
  | exportInterview : List (String × Val) → ExtCall

/-- The exceptions `process_answer` / report generation can raise. -/
inductive PAErr where
  | notStarted : PAErr
  | alreadyEnded : PAErr
  | indexError : PAErr
  | evaluatorFailed : PAErr
  | questionGenFailed : PAErr
  | feedbackFailed : PAErr
deriving DecidableEq

/-- The successful result of `process_answer`. -/
inductive PAResult where
  | nextQuestion : Evaluation → String → ℕ → ℕ → ℚ → PAResult
  | complete : Evaluation → List (String × Val) → PAResult

/-- The environment of one engine operation: the outcome each external call
would have (supplied, since the LLM and the clock are outside the model),
plus whether persistence / sheets-export collaborators are configured. -/
structure Env where
  evalR : Except Unit Evaluation
  qR : Except Unit String
  fbR : Except Unit (List (String × Val))
  now : ℕ
  hasStorage : Bool
  hasSheets : Bool

/-- `InterviewManager.generate_first_question`: no state guard; on evaluator
success it appends the question, sets `current_question_number = 1`,
`interview_started = True` and the start timestamp; on failure the exception
propagates with the state untouched. -/
def generate_first_question (qR : Except Unit String) (now : ℕ) (s : Session) :
    Session × Except Unit String :=
  match qR with
  | .error e => (s, .error e)
  | .ok q =>
      ({ s with
          current_question_number := 1
          questions_asked := s.questions_asked ++ [q]
          interview_started := true
          started_at := some now }, .ok q)

/-- Default evaluation for `List.getD` (never observed under the index guard). -/
def defaultEval : Evaluation :=
  { score := Option.none, evaluation := "", strengths := [], improvements := [] }

/-- One entry of the report's `questions_and_answers` list. -/
def qaEntry (s : Session) (i : ℕ) : Val :=
  Val.vdict
    [("question_number", Val.num ((i : ℚ) + 1)),
     ("question", Val.str (s.questions_asked.getD i "")),
     ("answer", Val.str (s.answers_given.getD i "")),
     ("score", Val.num (s.scores.getD i 0)),
     ("feedback", Val.vdict
        [("strengths", Val.list ((s.evaluations.getD i defaultEval).strengths.map Val.str)),
         ("improvements", Val.list ((s.evaluations.getD i defaultEval).improvements.map Val.str))])]

/-- `started_at.isoformat() if started_at else None`. -/
def optTime (t : Option ℕ) : Val :=
  match t with
  | some n => Val.num (n : ℚ)
  | Option.none => Val.null

/-- The report dict literal of `_generate_final_report`: computed fields first,
then `**final_feedback` merged LAST, so feedback keys shadow computed ones. -/
def report_of (now : ℕ) (s : Session) (fb : List (String × Val)) :
    List (String × Val) :=
  [("session_id", Val.str s.session_id),
   ("candidate_name", Val.str s.candidate_name),
   ("candidate_experience", Val.num (s.experience_years : ℚ)),
   ("job_description", Val.str s.job_description),
   ("difficulty", Val.str s.difficulty),
   ("started_at", optTime s.started_at),
   ("ended_at", optTime s.ended_at),
   ("total_questions", Val.num (s.questions_asked.length : ℚ)),
   ("average_score", Val.num (avg s.scores)),
   ("individual_scores", Val.list (s.scores.map Val.num)),
   ("questions_and_answers",
      Val.list ((List.range s.questions_asked.length).map (qaEntry s))),
   ("timestamp", Val.num (now : ℚ))] ++ fb

/-- `InterviewManager._generate_final_report`: index the three parallel lists
over `range(len(questions_asked))` (IndexError when a list is shorter), call
`generate_final_feedback`, build the report dict, then best-effort persist and
export it.  Returns the trace of external calls and the report or exception. -/
def generate_final_report_aux (env : Env) (s : Session) :
    List ExtCall × Except PAErr (List (String × Val)) :=
  if s.answers_given.length < s.questions_asked.length ∨
      s.scores.length < s.questions_asked.length ∨
      s.evaluations.length < s.questions_asked.length then
    ([], .error .indexError)
  else
    match env.fbR with
    | .error _ => ([ExtCall.generateFinalFeedback], .error .feedbackFailed)
    | .ok fb =>
        let report := report_of env.now s fb
        (ExtCall.generateFinalFeedback ::
           ((if env.hasStorage then [ExtCall.saveInterviewSession report] else []) ++
            (if env.hasSheets then [ExtCall.exportInterview report] else [])),
         .ok report)

/-- `InterviewManager.generate_final_report` (public): sets the ended flag and
timestamp if not yet ended, then ALWAYS recomputes via
`_generate_final_report`. -/
def generate_final_report (env : Env) (s : Session) :
    Session × List ExtCall × Except PAErr (List (String × Val)) :=
  let s1 := if s.interview_ended then s
            else { s with interview_ended := true, ended_at := some env.now }
  let r := generate_final_report_aux env s1
  (s1, r.1, r.2)

/-- `InterviewManager.process_answer`, faithful to the statement order of the
source: state guards, append the answer, look up the current question
(IndexError possible), evaluate it, append evaluation and
`evaluation.get("score", 5)`, best-effort `save_answer`, then either finish the
interview (set ended, build the final report) or generate the next question
(increment `current_question_number` BEFORE the call, append on success).
Returns the final state (mutations before an exception persist), the external
call trace, and the result or exception. -/
def process_answer (env : Env) (s : Session) (answer : String) :
    Session × List ExtCall × Except PAErr PAResult :=
  if !s.interview_started then (s, [], .error .notStarted)
  else if s.interview_ended then (s, [], .error .alreadyEnded)
  else
    let s1 := { s with answers_given := s.answers_given ++ [answer] }
    match s1.questions_asked[s1.current_question_number - 1]? with
    | Option.none => (s1, [], .error .indexError)
    | some _cq =>
      match env.evalR with
      | .error _ => (s1, [ExtCall.evaluateAnswer], .error .evaluatorFailed)
      | .ok ev =>
        let score := ev.score.getD 5
        let s2 := { s1 with
                      evaluations := s1.evaluations ++ [ev]
                      scores := s1.scores ++ [score] }
        let tr0 := ExtCall.evaluateAnswer ::
                     (if env.hasStorage then [ExtCall.saveAnswer] else [])
        if s2.total_questions ≤ s2.current_question_number then
          let s3 := { s2 with interview_ended := true, ended_at := some env.now }
          let r := generate_final_report_aux env s3
          match r.2 with
          | .error e => (s3, tr0 ++ r.1, .error e)
          | .ok report => (s3, tr0 ++ r.1, .ok (.complete ev report))
        else
          let s3 := { s2 with current_question_number := s2.current_question_number + 1 }
          match env.qR with
          | .error _ => (s3, tr0 ++ [ExtCall.generateQuestion], .error .questionGenFailed)
          | .ok q =>
            let s4 := { s3 with questions_asked := s3.questions_asked ++ [q] }
            (s4, tr0 ++ [ExtCall.generateQuestion],
             .ok (.nextQuestion ev q s4.current_question_number s4.total_questions
                    ((s4.current_question_number : ℚ) / (s4.total_questions : ℚ))))

/-- Python whitespace for `str.strip()`: tab, LF, VT, FF, CR, space. -/
def isPyWs (c : Char) : Bool :=
  decide (c.toNat = 9) || decide (c.toNat = 10) || decide (c.toNat = 11) ||
  decide (c.toNat = 12) || decide (c.toNat = 13) || decide (c.toNat = 32)

/-- Python `text.strip()`: drop leading and trailing whitespace. -/
def pyStrip (s : String) : String :=
  String.mk ((((s.data.dropWhile isPyWs).reverse).dropWhile isPyWs).reverse)

/-- The opening-brace character, `chr(123)`. -/
def lbrace : Char := Char.ofNat 123

/-- The closing-brace character, `chr(125)`. -/
def rbrace : Char := Char.ofNat 125

/-- Python `text.find(c)`: index of the first occurrence, as an `Option`. -/
def pyFind (c : Char) (l : List Char) : Option ℕ :=
  l.findIdx? (fun x => decide (x = c))

/-- Python `text.rfind(c)`: index of the last occurrence, as an `Option`. -/
def pyRfind (c : Char) (l : List Char) : Option ℕ :=
  match (l.reverse.findIdx? (fun x => decide (x = c))) with
  | some k => some (l.length - 1 - k)
  | Option.none => Option.none

/-- The JSON-snippet extraction both LLM wrappers perform:
`start = text.find(lbrace)`, `end = text.rfind(rbrace) + 1`, and the slice
`text[start:end]` when `start >= 0 and end > start` (else no snippet). -/
def extract_json (l : List Char) : Option (List Char) :=
  match pyFind lbrace l, pyRfind rbrace l with
  | some s, some e =>
      if s < e + 1 then some ((l.drop s).take (e + 1 - s)) else Option.none
  | _, _ => Option.none

/-- The structured-parse / fallback layer of `LLMEngine.evaluate_answer`:
`jsonLoads` stands for `json.loads` (`Option.none` = `JSONDecodeError`), `raw`
is the LLM's response text.  When no JSON snippet is found the fallback record
carries score 7; when the snippet fails to parse, score 6; in both fallbacks
the `evaluation` field is the raw (stripped) response text.  Total: never
raises. -/
def evaluate_answer_parse (jsonLoads : String → Option (List (String × Val)))
    (raw : String) : List (String × Val) :=
  let response_text := pyStrip raw
  match extract_json response_text.data with
  | Option.none =>
      [("score", Val.num 7),
       ("evaluation", Val.str response_text),
       ("strengths", Val.list [Val.str "Good communication"]),
       ("improvements", Val.list [Val.str "More detail needed"])]
  | some snippet =>
      match jsonLoads (String.mk snippet) with
      | some ev => ev
      | Option.none =>
          [("score", Val.num 6),
           ("evaluation", Val.str response_text),
           ("strengths", Val.list [Val.str "Attempted answer"]),
           ("improvements", Val.list [Val.str "Could be more detailed"])]

/-- The structured-parse / fallback layer of `LLMEngine.generate_final_feedback`
(the code first computes `average_score` from `all_scores`, then parses the
LLM text; both fallback branches produce the same record, with
`overall_score = int(average_score)` and `hire_recommendation = "maybe"`
independent of the average). -/
def generate_final_feedback_parse
    (jsonLoads : String → Option (List (String × Val)))
    (all_scores : List ℚ) (raw : String) : List (String × Val) :=
  let average_score := avg all_scores
  let response_text := pyStrip raw
  let fallback :=
    [("overall_score", Val.num (pyInt average_score : ℚ)),
     ("summary", Val.str response_text),
     ("strengths", Val.list []),
     ("weaknesses", Val.list []),
     ("recommendations", Val.list []),
     ("hire_recommendation", Val.str "maybe")]
  match extract_json response_text.data with
  | Option.none => fallback
  | some snippet =>
      match jsonLoads (String.mk snippet) with
      | some fb => fb
      | Option.none => fallback

/-- `SubmitAnswerPayload` of `app.py`: pydantic rejects the request before
`process_answer` runs unless `session_id` and `answer` have `min_length=1`. -/
def submitAnswerPayloadValid (session_id answer : String) : Bool :=
  decide (1 ≤ session_id.length) && decide (1 ≤ answer.length)

/-- `InterviewManager.get_state`: side-effect-free projection of the state. -/
def get_state (s : Session) : List (String × Val) :=
  [("session_id", Val.str s.session_id),
   ("interview_started", Val.bool s.interview_started),
   ("interview_ended", Val.bool s.interview_ended),
   ("current_question_number", Val.num (s.current_question_number : ℚ)),
   ("total_questions", Val.num (s.total_questions : ℚ)),
   ("questions_asked", Val.num (s.questions_asked.length : ℚ)),
   ("answers_given", Val.num (s.answers_given.length : ℚ)),
   ("average_score", Val.num (avg s.scores)),
   ("progress", Val.num ((s.current_question_number : ℚ) / (s.total_questions : ℚ)))]

/-- Discriminator for `Except`: `true` exactly when the operation succeeded. -/
def exceptOk {e a : Type} : Except e a → Bool
  | .ok _ => true
  | .error _ => false

/-- A successfully parsed evaluation record with score 8. -/
def okEval : Evaluation :=
  { score := some 8, evaluation := "good", strengths := ["a"], improvements := ["b"] }

/-- A fresh session, as built by `InterviewManager.__init__`. -/
def s0 : Session := initSession "sid" "jd" "cn" 3 "intermediate"

/-- An environment in which every external call succeeds. -/
def env1 : Env :=
  { evalR := .ok okEval, qR := .ok "Q2", fbR := .ok [("summary", Val.str "s")],
    now := 7, hasStorage := true, hasSheets := false }

/-- The session after a successful `generate_first_question` on `s0`. -/
def s1 : Session := (generate_first_question (.ok "Q1") 0 s0).1

/-- A `json.loads` stand-in that fails on every input (malformed JSON). -/
def noParse : String → Option (List (String × Val)) := fun _ => Option.none

/-- A `json.loads` stand-in that parses every input to a dict carrying only
an LLM-chosen `hire_recommendation`. -/
def yesParse : String → Option (List (String × Val)) :=
  fun _ => some [("hire_recommendation", Val.str "no")]

/-- A completed one-question session (ended, one entry in each sequence). -/
def sDone : Session :=
  { session_id := "sid2", candidate_name := "cn", experience_years := 3,
    job_description := "jd", difficulty := "intermediate",
    current_question_number := 1, total_questions := 1,
    questions_asked := ["Q"], answers_given := ["A"], scores := [8],
    evaluations := [okEval], interview_started := true, interview_ended := true,
    started_at := some 0, ended_at := some 5 }

/-- A final-feedback dict that does not collide with any computed key. -/
def fb2 : List (String × Val) := [("summary", Val.str "fb")]

/-- Environment for a first `generate_final_report` call (clock at 10). -/
def envA : Env :=
  { evalR := .ok okEval, qR := .ok "QX", fbR := .ok fb2, now := 10,
    hasStorage := true, hasSheets := false }

/-- The same environment with the wall clock advanced to 11. -/
def envB : Env := { envA with now := 11 }

/-- The report the first `generate_final_report` call produces. -/
def reportA : List (String × Val) := report_of 10 sDone fb2

/-- The report the second `generate_final_report` call produces. -/
def reportB : List (String × Val) := report_of 11 sDone fb2

/-- Environment in which next-question generation fails. -/
def env6 : Env :=
  { evalR := .ok okEval, qR := .error (), fbR := .ok [], now := 1,
    hasStorage := false, hasSheets := false }

/-- Environment in which answer evaluation fails. -/
def env6e : Env :=
  { evalR := .error (), qR := .ok "QX", fbR := .ok [], now := 1,
    hasStorage := false, hasSheets := false }

/-- Environment whose final feedback carries an `average_score` key. -/
def env8 : Env :=
  { evalR := .ok okEval, qR := .ok "QX", fbR := .ok [("average_score", Val.num 0)],
    now := 3, hasStorage := false, hasSheets := false }

/-- The `not started` guard of `process_answer`: the state is untouched. -/
lemma pa_not_started (env : Env) (s : Session) (a : String)
    (h : s.interview_started = false) :
    process_answer env s a = (s, [], .error .notStarted) := by
  simp [process_answer, h]

/-- The `already ended` guard of `process_answer`: the state is untouched. -/
lemma pa_already_ended (env : Env) (s : Session) (a : String)
    (h1 : s.interview_started = true) (h2 : s.interview_ended = true) :
    process_answer env s a = (s, [], .error .alreadyEnded) := by
  simp [process_answer, h1, h2]

/-- Current-question lookup out of range: the answer is already appended when
the IndexError is raised. -/
lemma pa_index_error (env : Env) (s : Session) (a : String)
    (h1 : s.interview_started = true) (h2 : s.interview_ended = false)
    (h3 : s.questions_asked[s.current_question_number - 1]? = Option.none) :
    process_answer env s a =
      ({ s with answers_given := s.answers_given ++ [a] }, [], .error .indexError) := by
  simp [process_answer, h1, h2, h3]

/-- Evaluation call fails: only the appended answer survives. -/
lemma pa_eval_fail (env : Env) (s : Session) (a : String) (cq : String)
    (h1 : s.interview_started = true) (h2 : s.interview_ended = false)
    (h3 : s.questions_asked[s.current_question_number - 1]? = some cq)
    (h4 : env.evalR = .error ()) :
    process_answer env s a =
      ({ s with answers_given := s.answers_given ++ [a] },
       [ExtCall.evaluateAnswer], .error .evaluatorFailed) := by
  simp [process_answer, h1, h2, h3, h4]

/-- Last question answered: the session ends and the final report is built. -/
lemma pa_complete (env : Env) (s : Session) (a : String) (cq : String) (ev : Evaluation)
    (h1 : s.interview_started = true) (h2 : s.interview_ended = false)
    (h3 : s.questions_asked[s.current_question_number - 1]? = some cq)
    (h4 : env.evalR = .ok ev)
    (h5 : s.total_questions ≤ s.current_question_number) :
    process_answer env s a =
      (let s3 : Session := { s with
          answers_given := s.answers_given ++ [a],
          evaluations := s.evaluations ++ [ev],
          scores := s.scores ++ [ev.score.getD 5],
          interview_ended := true, ended_at := some env.now }
       (s3,
        ExtCall.evaluateAnswer ::
          ((if env.hasStorage then [ExtCall.saveAnswer] else []) ++
            (generate_final_report_aux env s3).1),
        match (generate_final_report_aux env s3).2 with
        | .error e => .error e
        | .ok report => .ok (.complete ev report))) := by
  simp [process_answer, h1, h2, h3, h4, h5]
  split <;> rfl

/-- Next-question call fails: the evaluation and score are kept and the counter
is already incremented, but no question was appended. -/
lemma pa_qgen_fail (env : Env) (s : Session) (a : String) (cq : String) (ev : Evaluation)
    (h1 : s.interview_started = true) (h2 : s.interview_ended = false)
    (h3 : s.questions_asked[s.current_question_number - 1]? = some cq)
    (h4 : env.evalR = .ok ev)
    (h5 : s.current_question_number < s.total_questions)
    (h6 : env.qR = .error ()) :
    process_answer env s a =
      ({ s with
          answers_given := s.answers_given ++ [a],
          evaluations := s.evaluations ++ [ev],
          scores := s.scores ++ [ev.score.getD 5],
          current_question_number := s.current_question_number + 1 },
       ExtCall.evaluateAnswer ::
         ((if env.hasStorage then [ExtCall.saveAnswer] else []) ++ [ExtCall.generateQuestion]),
       .error .questionGenFailed) := by
  have h5' : ¬ (s.total_questions ≤ s.current_question_number) := Nat.not_le.mpr h5
  simp [process_answer, h1, h2, h3, h4, h5', h6]

/-- Full success on a non-final question: all four sequences and the counter
advance, and a next question is appended. -/
lemma pa_next (env : Env) (s : Session) (a : String) (cq q : String) (ev : Evaluation)
    (h1 : s.interview_started = true) (h2 : s.interview_ended = false)
    (h3 : s.questions_asked[s.current_question_number - 1]? = some cq)
    (h4 : env.evalR = .ok ev)
    (h5 : s.current_question_number < s.total_questions)
    (h6 : env.qR = .ok q) :
    process_answer env s a =
      ({ s with
          answers_given := s.answers_given ++ [a],
          evaluations := s.evaluations ++ [ev],
          scores := s.scores ++ [ev.score.getD 5],
          current_question_number := s.current_question_number + 1,
          questions_asked := s.questions_asked ++ [q] },
       ExtCall.evaluateAnswer ::
         ((if env.hasStorage then [ExtCall.saveAnswer] else []) ++ [ExtCall.generateQuestion]),
       .ok (.nextQuestion ev q (s.current_question_number + 1) s.total_questions
              (((s.current_question_number + 1 : ℕ) : ℚ) / ((s.total_questions : ℕ) : ℚ)))) := by
  have h5' : ¬ (s.total_questions ≤ s.current_question_number) := Nat.not_le.mpr h5
  simp [process_answer, h1, h2, h3, h4, h5', h6]

/-- Searching an appended list finds whatever the first part finds. -/
lemma find?_append_of_some {α : Type} (p : α → Bool) (l₁ l₂ : List α) (x : α)
    (h : l₁.find? p = some x) : (l₁ ++ l₂).find? p = some x := by
  induction l₁ with
  | nil => simp [List.find?] at h
  | cons y ys ih =>
      rw [List.cons_append]
      cases hy : p y with
      | true =>
          rw [List.find?_cons_of_pos _ hy] at h
          rw [List.find?_cons_of_pos _ hy]
          exact h
      | false =>
          rw [List.find?_cons_of_neg _ (by simp [hy])] at h
          rw [List.find?_cons_of_neg _ (by simp [hy])]
          exact ih h

/-- Searching an appended list falls through to the second part when the first
part has no match. -/
lemma find?_append_of_none {α : Type} (p : α → Bool) (l₁ l₂ : List α)
    (h : l₁.find? p = Option.none) : (l₁ ++ l₂).find? p = l₂.find? p := by
  induction l₁ with
  | nil => rfl
  | cons y ys ih =>
      rw [List.cons_append]
      cases hy : p y with
      | true =>
          rw [List.find?_cons_of_pos _ hy] at h
          cases h
      | false =>
          rw [List.find?_cons_of_neg _ (by simp [hy])] at h
          rw [List.find?_cons_of_neg _ (by simp [hy])]
          exact ih h

/-- A key bound in the right (later) part of a dict shadows the left part. -/
lemma dget_append_right (c fb : List (String × Val)) (k : String) (v : Val)
    (h : dget fb k = some v) : dget (c ++ fb) k = some v := by
  unfold dget at h ⊢
  rw [List.reverse_append]
  cases hf : fb.reverse.find? (fun p => decide (p.1 = k)) with
  | none => rw [hf] at h; cases h
  | some p =>
      rw [hf] at h
      rw [find?_append_of_some _ _ _ _ hf]
      exact h

/-- A key absent from the right (later) part of a dict is looked up on the left. -/
lemma dget_append_left (c fb : List (String × Val)) (k : String)
    (h : dget fb k = Option.none) : dget (c ++ fb) k = dget c k := by
  unfold dget at h ⊢
  rw [List.reverse_append]
  cases hf : fb.reverse.find? (fun p => decide (p.1 = k)) with
  | none => rw [find?_append_of_none _ _ _ hf]
  | some p => rw [hf] at h; cases h

/-- Claim C1, counterexample: the four sequences do NOT grow in lock-step
after every successful `process_answer` call.  One successful call on a
freshly started session (1 question, 0 answers) already appends the next
question, leaving 2 questions against 1 answer, 1 score, 1 evaluation. -/
theorem C1_counterexample :
    exceptOk (process_answer env1 s1 "A1").2.2 = true ∧
    (process_answer env1 s1 "A1").1.questions_asked.length = 2 ∧
    (process_answer env1 s1 "A1").1.answers_given.length = 1 ∧
    (process_answer env1 s1 "A1").1.scores.length = 1 ∧
    (process_answer env1 s1 "A1").1.evaluations.length = 1 ∧
    (2 : ℕ) ≠ 1 :=
  ⟨rfl, rfl, rfl, rfl, rfl, by decide⟩

/-- Claim C1, amended: after every successful `process_answer` call on a
session satisfying the in-progress shape (answers, scores and evaluations of
equal length; one more question than answers), the three answer-indexed
sequences have equal length, and `questions_asked` exceeds them by exactly one
while the interview is still in progress and matches them exactly when the
call completed the interview. -/
theorem C1_lockstep (env : Env) (s : Session) (a : String)
    (hA : s.answers_given.length = s.scores.length)
    (hS : s.scores.length = s.evaluations.length)
    (hQ : s.questions_asked.length = s.answers_given.length + 1)
    (hok : exceptOk (process_answer env s a).2.2 = true) :
    (process_answer env s a).1.answers_given.length = (process_answer env s a).1.scores.length ∧
    (process_answer env s a).1.scores.length = (process_answer env s a).1.evaluations.length ∧
    (process_answer env s a).1.questions_asked.length =
      (process_answer env s a).1.answers_given.length +
        (if (process_answer env s a).1.interview_ended = true then 0 else 1) := by
  by_cases h1 : s.interview_started = true
  case neg =>
    rw [pa_not_started env s a (by simpa using h1)] at hok
    simp [exceptOk] at hok
  case pos =>
  by_cases h2 : s.interview_ended = true
  · rw [pa_already_ended env s a h1 h2] at hok
    simp [exceptOk] at hok
  · have h2' : s.interview_ended = false := by simpa using h2
    cases hget : s.questions_asked[s.current_question_number - 1]? with
    | none =>
        rw [pa_index_error env s a h1 h2' hget] at hok
        simp [exceptOk] at hok
    | some cq =>
      cases hev : env.evalR with
      | error u =>
          cases u
          rw [pa_eval_fail env s a cq h1 h2' hget hev] at hok
          simp [exceptOk] at hok
      | ok ev =>
        by_cases h5 : s.total_questions ≤ s.current_question_number
        · have hpa := pa_complete env s a cq ev h1 h2' hget hev h5
          rw [hpa]
          simp [List.length_append, hA, hS, hQ]
        · have h5' : s.current_question_number < s.total_questions := Nat.not_le.mp h5
          cases hq : env.qR with
          | error u =>
              cases u
              rw [pa_qgen_fail env s a cq ev h1 h2' hget hev h5' hq] at hok
              simp [exceptOk] at hok
          | ok q =>
              rw [pa_next env s a cq q ev h1 h2' hget hev h5' hq]
              simp [List.length_append, hA, hS, hQ, h2']

/-- Claim C1, witness: `C1_lockstep` evaluated on a concrete successful call. -/
theorem C1_lockstep_witness :
    (process_answer env1 s1 "A1").1.answers_given.length = (process_answer env1 s1 "A1").1.scores.length ∧
    (process_answer env1 s1 "A1").1.scores.length = (process_answer env1 s1 "A1").1.evaluations.length ∧
    (process_answer env1 s1 "A1").1.questions_asked.length =
      (process_answer env1 s1 "A1").1.answers_given.length +
        (if (process_answer env1 s1 "A1").1.interview_ended = true then 0 else 1) :=
  C1_lockstep env1 s1 "A1" rfl rfl rfl rfl

/-- Claim C2, counterexample: `generate_final_report` is not idempotent.  Two
calls on the same completed session each invoke the final-feedback evaluator
call and the persistence call again (both traces repeat them), and the two
returned Reports are not bit-identical: their `timestamp` fields carry the two
distinct clock readings. -/
theorem C2_counterexample :
    (generate_final_report envA sDone).2.2 = .ok reportA ∧
    (generate_final_report envA sDone).2.1 =
      [ExtCall.generateFinalFeedback, ExtCall.saveInterviewSession reportA] ∧
    (generate_final_report envB (generate_final_report envA sDone).1).2.2 = .ok reportB ∧
    (generate_final_report envB (generate_final_report envA sDone).1).2.1 =
      [ExtCall.generateFinalFeedback, ExtCall.saveInterviewSession reportB] ∧
    dget reportA "timestamp" = some (Val.num ((10 : ℕ) : ℚ)) ∧
    dget reportB "timestamp" = some (Val.num ((11 : ℕ) : ℚ)) ∧
    Val.num ((10 : ℕ) : ℚ) ≠ Val.num ((11 : ℕ) : ℚ) := by
  refine ⟨rfl, rfl, rfl, rfl, rfl, rfl, ?_⟩
  intro h
  injection h with h1
  norm_num at h1

/-- Claim C2, amended: `generate_final_report` is idempotent only on the state:
the ended flag is true afterwards, and a call on an already-ended session
leaves the session unchanged (the flag and end timestamp are set at most
once).  It is not idempotent as an operation: every call re-invokes the
evaluator's final-feedback generation (the trace of every call begins with
that external call), so a second call recomputes the Report. -/
theorem C2_flag_only_idempotent (env : Env) (s : Session)
    (hlen : s.questions_asked.length ≤ s.answers_given.length ∧
            s.questions_asked.length ≤ s.scores.length ∧
            s.questions_asked.length ≤ s.evaluations.length) :
    ((generate_final_report env s).1).interview_ended = true ∧
    (generate_final_report env s).1 =
      (if s.interview_ended then s
       else { s with interview_ended := true, ended_at := some env.now }) ∧
    ((generate_final_report env s).2.1).head? = some ExtCall.generateFinalFeedback := by
  obtain ⟨hl1, hl2, hl3⟩ := hlen
  have hguard : ¬ (s.answers_given.length < s.questions_asked.length ∨
      s.scores.length < s.questions_asked.length ∨
      s.evaluations.length < s.questions_asked.length) := by
    push_neg
    exact ⟨hl1, hl2, hl3⟩
  refine ⟨?_, rfl, ?_⟩
  · cases hB : s.interview_ended with
    | true => simp [generate_final_report, hB]
    | false => simp [generate_final_report, hB]
  · cases hfb : env.fbR with
    | error u =>
        cases hB : s.interview_ended <;>
          simp [generate_final_report, generate_final_report_aux, hB, hguard, hfb]
    | ok fb =>
        cases hB : s.interview_ended <;>
          simp [generate_final_report, generate_final_report_aux, hB, hguard, hfb]

/-- Claim C2, witness: `C2_flag_only_idempotent` on a concrete ended session. -/
theorem C2_flag_only_idempotent_witness :
    ((generate_final_report envA sDone).1).interview_ended = true ∧
    (generate_final_report envA sDone).1 =
      (if sDone.interview_ended then sDone
       else { sDone with interview_ended := true, ended_at := some envA.now }) ∧
    ((generate_final_report envA sDone).2.1).head? = some ExtCall.generateFinalFeedback :=
  C2_flag_only_idempotent envA sDone ⟨by decide, by decide, by decide⟩

/-- Claim C3, counterexample: `generate_first_question` has no state guard.
Called a second time on an already-started session it does not fail: it
succeeds, leaves TWO questions asked (not one), and resets
`current_question_number` to 1. -/
theorem C3_counterexample :
    (generate_first_question (.ok "Q1b") 1 s1).2 = .ok "Q1b" ∧
    (generate_first_question (.ok "Q1b") 1 s1).1.questions_asked.length = 2 ∧
    (generate_first_question (.ok "Q1b") 1 s1).1.current_question_number = 1 :=
  ⟨rfl, rfl, rfl⟩

/-- Claim C3, amended: `generate_first_question` performs no state check: from
any session state, on evaluator success it appends the question, sets
`current_question_number = 1`, sets the started flag and start timestamp (so a
second call succeeds again and appends a second question); on evaluator
failure the error propagates with the session unchanged. -/
theorem C3_no_state_guard (qR : Except Unit String) (now : ℕ) (s : Session) :
    (∀ q, qR = .ok q → generate_first_question qR now s =
      ({ s with
          current_question_number := 1,
          questions_asked := s.questions_asked ++ [q],
          interview_started := true,
          started_at := some now }, .ok q)) ∧
    (∀ e, qR = .error e → generate_first_question qR now s = (s, .error e)) := by
  constructor
  · intro q h; subst h; rfl
  · intro e h; subst h; rfl

/-- Claim C3, witness: `C3_no_state_guard` on a fresh session, both outcomes. -/
theorem C3_no_state_guard_witness :
    generate_first_question (.ok "Q1") 0 s0 =
      ({ s0 with
          current_question_number := 1,
          questions_asked := s0.questions_asked ++ ["Q1"],
          interview_started := true,
          started_at := some 0 }, .ok "Q1") ∧
    generate_first_question (.error ()) 0 s0 = (s0, .error ()) :=
  ⟨(C3_no_state_guard (.ok "Q1") 0 s0).1 "Q1" rfl,
   (C3_no_state_guard (.error ()) 0 s0).2 () rfl⟩

/-- Claim C4, counterexample: the code computes no tier from the average.  On
the only deterministic path (unparseable LLM response), the fallback of
`generate_final_feedback` sets `hire_recommendation` to `"maybe"` regardless of
the scores: with scores `[8, 9, 7]` (average 8) it yields `"maybe"`, not
`"strong yes"`; with scores `[]` (average 0) it yields `"maybe"`, not `"no"`. -/
theorem C4_counterexample :
    dget (generate_final_feedback_parse noParse [8, 9, 7] "unparseable") "hire_recommendation"
      = some (Val.str "maybe") ∧
    avg [8, 9, 7] = 8 ∧
    dget (generate_final_feedback_parse noParse [] "unparseable") "hire_recommendation"
      = some (Val.str "maybe") ∧
    avg [] = 0 ∧
    ("maybe" : String) ≠ "strong yes" ∧ ("maybe" : String) ≠ "no" :=
  ⟨rfl, by norm_num [avg], rfl, rfl, by decide, by decide⟩

/-- Claim C4, amended: `generate_final_feedback` derives no hire-recommendation
tier from the average score.  When the LLM response parses, the returned
feedback is the parsed dict unchanged (the tier is whatever the LLM supplied,
independent of the average); when no JSON is found, the fallback carries
`hire_recommendation = "maybe"` and `overall_score = int(average)` for every
score sequence.  The average itself is the arithmetic mean (0 if empty). -/
theorem C4_no_tier_from_average (jsonLoads : String → Option (List (String × Val)))
    (all_scores : List ℚ) (raw : String) :
    (∀ snippet fb, extract_json (pyStrip raw).data = some snippet →
        jsonLoads (String.mk snippet) = some fb →
        generate_final_feedback_parse jsonLoads all_scores raw = fb) ∧
    (extract_json (pyStrip raw).data = Option.none →
        dget (generate_final_feedback_parse jsonLoads all_scores raw) "hire_recommendation"
          = some (Val.str "maybe") ∧
        dget (generate_final_feedback_parse jsonLoads all_scores raw) "overall_score"
          = some (Val.num (pyInt (avg all_scores) : ℚ))) := by
  constructor
  · intro snippet fb hsn hfb
    simp only [generate_final_feedback_parse, hsn, hfb]
  · intro hsn
    simp only [generate_final_feedback_parse, hsn]
    exact ⟨rfl, rfl⟩

/-- Claim C4, witness: `C4_no_tier_from_average` on concrete parsers — a
parsed response whose tier is LLM-chosen despite average 8, and the fallback. -/
theorem C4_no_tier_from_average_witness :
    generate_final_feedback_parse yesParse [8, 9, 7] "\x7bx\x7d" =
      [("hire_recommendation", Val.str "no")] ∧
    (dget (generate_final_feedback_parse noParse [8, 9, 7] "unparseable") "hire_recommendation"
        = some (Val.str "maybe") ∧
     dget (generate_final_feedback_parse noParse [8, 9, 7] "unparseable") "overall_score"
        = some (Val.num (pyInt (avg [8, 9, 7]) : ℚ))) :=
  ⟨(C4_no_tier_from_average yesParse [8, 9, 7] "\x7bx\x7d").1
      ("\x7bx\x7d".data) [("hire_recommendation", Val.str "no")] rfl rfl,
   (C4_no_tier_from_average noParse [8, 9, 7] "unparseable").2 rfl⟩

/-- Claim C5, counterexample: the fallback default score is not a single fixed
constant — `evaluate_answer` returns score 7 when the response contains no
JSON object delimiters and score 6 when an extracted snippet fails to parse. -/
theorem C5_counterexample :
    dget (evaluate_answer_parse noParse "no json here") "score" = some (Val.num 7) ∧
    dget (evaluate_answer_parse noParse "\x7bbad\x7d") "score" = some (Val.num 6) ∧
    Val.num 7 ≠ Val.num 6 := by
  refine ⟨rfl, rfl, ?_⟩
  intro h
  injection h with h1
  norm_num at h1

/-- Claim C5, amended: when the evaluator response cannot be parsed as
structured data, `evaluate_answer` never raises and returns a record whose
`evaluation` field is the raw (stripped) response text and whose score is one
of two fixed default constants: 7 when no JSON object delimiters are found,
6 when the extracted snippet fails to parse. -/
theorem C5_two_fallback_scores (jsonLoads : String → Option (List (String × Val))) (raw : String) :
    (extract_json (pyStrip raw).data = Option.none →
       dget (evaluate_answer_parse jsonLoads raw) "score" = some (Val.num 7) ∧
       dget (evaluate_answer_parse jsonLoads raw) "evaluation" = some (Val.str (pyStrip raw))) ∧
    (∀ snippet, extract_json (pyStrip raw).data = some snippet →
       jsonLoads (String.mk snippet) = Option.none →
       dget (evaluate_answer_parse jsonLoads raw) "score" = some (Val.num 6) ∧
       dget (evaluate_answer_parse jsonLoads raw) "evaluation" = some (Val.str (pyStrip raw))) := by
  constructor
  · intro hsn
    simp only [evaluate_answer_parse, hsn]
    exact ⟨rfl, rfl⟩
  · intro snippet hsn hdec
    simp only [evaluate_answer_parse, hsn, hdec]
    exact ⟨rfl, rfl⟩

/-- Claim C5, witness: `C5_two_fallback_scores` on both concrete fallbacks. -/
theorem C5_two_fallback_scores_witness :
    (dget (evaluate_answer_parse noParse "no json here") "score" = some (Val.num 7) ∧
     dget (evaluate_answer_parse noParse "no json here") "evaluation" = some (Val.str (pyStrip "no json here"))) ∧
    (dget (evaluate_answer_parse noParse "\x7bbad\x7d") "score" = some (Val.num 6) ∧
     dget (evaluate_answer_parse noParse "\x7bbad\x7d") "evaluation" = some (Val.str (pyStrip "\x7bbad\x7d"))) :=
  ⟨(C5_two_fallback_scores noParse "no json here").1 rfl,
   (C5_two_fallback_scores noParse "\x7bbad\x7d").2 ("\x7bbad\x7d".data) rfl rfl⟩

/-- Claim C6, counterexample: when the next-question evaluator call fails, the
session IS mutated beyond the committed point: `current_question_number` is
already incremented to 2 while only 1 question was ever asked, and a
resubmission does not retry cleanly — it raises an index error on the
current-question lookup. -/
theorem C6_counterexample :
    (process_answer env6 s1 "A1").2.2 = .error .questionGenFailed ∧
    (process_answer env6 s1 "A1").1.current_question_number = 2 ∧
    (process_answer env6 s1 "A1").1.questions_asked.length = 1 ∧
    (process_answer env6 s1 "A1").1.scores.length = 1 ∧
    (process_answer env6 s1 "A1").1.evaluations.length = 1 ∧
    (process_answer env1 (process_answer env6 s1 "A1").1 "A1").2.2 = .error .indexError :=
  ⟨rfl, rfl, rfl, rfl, rfl, rfl⟩

/-- Claim C6, amended: if the answer-evaluation call fails, the appended
answer is the only mutation (no score, evaluation, question or counter change)
and a retry is possible; but if the next-question call fails, the evaluation
and score stay appended and `current_question_number` has already been
incremented past the number of questions asked, leaving the session in a state
a resubmission cannot process. -/
theorem C6_partial_commit (env : Env) (s : Session) (a : String) :
    (∀ cq, s.interview_started = true → s.interview_ended = false →
       s.questions_asked[s.current_question_number - 1]? = some cq →
       env.evalR = .error () →
       process_answer env s a =
         ({ s with answers_given := s.answers_given ++ [a] },
          [ExtCall.evaluateAnswer], .error .evaluatorFailed)) ∧
    (∀ cq ev, s.interview_started = true → s.interview_ended = false →
       s.questions_asked[s.current_question_number - 1]? = some cq →
       env.evalR = .ok ev → s.current_question_number < s.total_questions →
       env.qR = .error () →
       process_answer env s a =
         ({ s with
             answers_given := s.answers_given ++ [a],
             evaluations := s.evaluations ++ [ev],
             scores := s.scores ++ [ev.score.getD 5],
             current_question_number := s.current_question_number + 1 },
          ExtCall.evaluateAnswer ::
            ((if env.hasStorage then [ExtCall.saveAnswer] else []) ++ [ExtCall.generateQuestion]),
          .error .questionGenFailed)) :=
  ⟨fun cq h1 h2 h3 h4 => pa_eval_fail env s a cq h1 h2 h3 h4,
   fun cq ev h1 h2 h3 h4 h5 h6 => pa_qgen_fail env s a cq ev h1 h2 h3 h4 h5 h6⟩

/-- Claim C6, witness: `C6_partial_commit` on a started session, once with the
evaluation call failing and once with the next-question call failing. -/
theorem C6_partial_commit_witness :
    process_answer env6e s1 "A1" =
      ({ s1 with answers_given := s1.answers_given ++ ["A1"] },
       [ExtCall.evaluateAnswer], .error .evaluatorFailed) ∧
    process_answer env6 s1 "A1" =
      ({ s1 with
          answers_given := s1.answers_given ++ ["A1"],
          evaluations := s1.evaluations ++ [okEval],
          scores := s1.scores ++ [okEval.score.getD 5],
          current_question_number := s1.current_question_number + 1 },
       ExtCall.evaluateAnswer ::
         ((if env6.hasStorage then [ExtCall.saveAnswer] else []) ++ [ExtCall.generateQuestion]),
       .error .questionGenFailed) :=
  ⟨(C6_partial_commit env6e s1 "A1").1 "Q1" rfl rfl rfl rfl,
   (C6_partial_commit env6 s1 "A1").2 "Q1" okEval rfl rfl rfl rfl (by decide) rfl⟩

/-- Claim C7: `process_answer` on a never-started session fails with the
not-started invalid-state error, and on an ended session with the
already-ended invalid-state error; in both cases the returned state is the
input session unchanged and no external call is made. -/
theorem C7_invalid_state_guard (env : Env) (s : Session) (a : String) :
    (s.interview_started = false →
       process_answer env s a = (s, [], .error .notStarted)) ∧
    (s.interview_started = true → s.interview_ended = true →
       process_answer env s a = (s, [], .error .alreadyEnded)) :=
  ⟨fun h => pa_not_started env s a h,
   fun h1 h2 => pa_already_ended env s a h1 h2⟩

/-- Claim C7, witness: `C7_invalid_state_guard` on a fresh session (Created)
and on a completed session. -/
theorem C7_invalid_state_guard_witness :
    process_answer env1 s0 "A" = (s0, [], .error .notStarted) ∧
    process_answer env1 sDone "A" = (sDone, [], .error .alreadyEnded) :=
  ⟨(C7_invalid_state_guard env1 s0 "A").1 rfl,
   (C7_invalid_state_guard env1 sDone "A").2 rfl rfl⟩

/-- Claim C8, counterexample: the Report's `average_score` is NOT always the
arithmetic mean — when the evaluator-supplied final feedback itself carries an
`average_score` key, the merge puts it last and it replaces the computed mean:
with recorded scores `[8]` (mean 8) the produced Report reads 0. -/
theorem C8_counterexample :
    (generate_final_report_aux env8 sDone).2 =
      .ok (report_of 3 sDone [("average_score", Val.num 0)]) ∧
    dget (report_of 3 sDone [("average_score", Val.num 0)]) "average_score" = some (Val.num 0) ∧
    avg sDone.scores = 8 ∧
    (0 : ℚ) ≠ 8 :=
  ⟨rfl, rfl, by norm_num [avg, sDone], by norm_num⟩

/-- Claim C8, amended: the computed `average_score` of the Report is the
arithmetic mean of the recorded scores (0 when empty) whenever the evaluator
feedback does not override that key, and the `average_score` exposed by
`get_state` is unconditionally the arithmetic mean. -/
theorem C8_average_is_mean_unless_overridden (now : ℕ) (s : Session)
    (fb : List (String × Val))
    (h : dget fb "average_score" = Option.none) :
    dget (report_of now s fb) "average_score" = some (Val.num (avg s.scores)) ∧
    dget (get_state s) "average_score" = some (Val.num (avg s.scores)) ∧
    avg [] = 0 := by
  refine ⟨?_, rfl, rfl⟩
  unfold report_of
  rw [dget_append_left _ _ _ h]
  rfl

/-- Claim C8, witness: `C8_average_is_mean_unless_overridden` on a concrete
session and a feedback dict without the key. -/
theorem C8_average_is_mean_witness :
    dget (report_of 3 sDone [("summary", Val.str "x")]) "average_score" = some (Val.num (avg sDone.scores)) ∧
    dget (get_state sDone) "average_score" = some (Val.num (avg sDone.scores)) ∧
    avg [] = 0 :=
  C8_average_is_mean_unless_overridden 3 sDone [("summary", Val.str "x")] rfl

/-- Claim C9, counterexample: `process_answer` accepts an empty answer on an
in-progress session: the call succeeds (no validation error) and the empty
string is appended to `answers_given`. -/
theorem C9_counterexample :
    exceptOk (process_answer env1 s1 "").2.2 = true ∧
    (process_answer env1 s1 "").1.answers_given = [""] ∧
    ("" : String).length = 0 :=
  ⟨rfl, rfl, rfl⟩

/-- Claim C9, amended: `process_answer` itself performs no emptiness check —
on any in-progress session the empty answer is appended like any other text;
the non-empty constraint is enforced only by the transport layer, whose
`SubmitAnswerPayload` validation rejects an empty answer before
`process_answer` runs. -/
theorem C9_no_emptiness_check (env : Env) (s : Session) (sid : String)
    (h1 : s.interview_started = true) (h2 : s.interview_ended = false) :
    (process_answer env s "").1.answers_given = s.answers_given ++ [""] ∧
    submitAnswerPayloadValid sid "" = false := by
  constructor
  · cases hget : s.questions_asked[s.current_question_number - 1]? with
    | none => rw [pa_index_error env s "" h1 h2 hget]
    | some cq =>
      cases hev : env.evalR with
      | error u =>
          cases u
          rw [pa_eval_fail env s "" cq h1 h2 hget hev]
      | ok ev =>
        by_cases h5 : s.total_questions ≤ s.current_question_number
        · rw [pa_complete env s "" cq ev h1 h2 hget hev h5]
        · have h5' : s.current_question_number < s.total_questions := Nat.not_le.mp h5
          cases hq : env.qR with
          | error u =>
              cases u
              rw [pa_qgen_fail env s "" cq ev h1 h2 hget hev h5' hq]
          | ok q =>
              rw [pa_next env s "" cq q ev h1 h2 hget hev h5' hq]
  · simp [submitAnswerPayloadValid]

/-- Claim C9, witness: `C9_no_emptiness_check` on a concrete started session. -/
theorem C9_no_emptiness_check_witness :
    (process_answer env1 s1 "").1.answers_given = s1.answers_given ++ [""] ∧
    submitAnswerPayloadValid "abc12345" "" = false :=
  C9_no_emptiness_check env1 s1 "abc12345" rfl rfl

/-- Claim C10: the final-feedback dict is merged into the report last, so
every key it binds replaces any computed field of the same name, and the very
Report value so merged is the one returned, handed to the persistence sink,
and handed to the export sink. -/
theorem C10_feedback_merge_last (env : Env) (s : Session) (fb : List (String × Val))
    (k : String) (v : Val)
    (hfb : env.fbR = .ok fb)
    (hl1 : s.questions_asked.length ≤ s.answers_given.length)
    (hl2 : s.questions_asked.length ≤ s.scores.length)
    (hl3 : s.questions_asked.length ≤ s.evaluations.length)
    (hk : dget fb k = some v) :
    (generate_final_report_aux env s).2 = .ok (report_of env.now s fb) ∧
    dget (report_of env.now s fb) k = some v ∧
    (env.hasStorage = true →
       ExtCall.saveInterviewSession (report_of env.now s fb) ∈ (generate_final_report_aux env s).1) ∧
    (env.hasSheets = true →
       ExtCall.exportInterview (report_of env.now s fb) ∈ (generate_final_report_aux env s).1) := by
  have hguard : ¬ (s.answers_given.length < s.questions_asked.length ∨
      s.scores.length < s.questions_asked.length ∨
      s.evaluations.length < s.questions_asked.length) := by
    push_neg
    exact ⟨hl1, hl2, hl3⟩
  refine ⟨?_, ?_, ?_, ?_⟩
  · simp [generate_final_report_aux, hguard, hfb]
  · unfold report_of
    exact dget_append_right _ _ _ _ hk
  · intro hst
    simp [generate_final_report_aux, hguard, hfb, hst]
  · intro hsh
    simp [generate_final_report_aux, hguard, hfb, hsh]

/-- Claim C10, witness: `C10_feedback_merge_last` on a concrete completed
session and feedback dict. -/
theorem C10_feedback_merge_last_witness :
    (generate_final_report_aux envA sDone).2 = .ok (report_of envA.now sDone fb2) ∧
    dget (report_of envA.now sDone fb2) "summary" = some (Val.str "fb") ∧
    (envA.hasStorage = true →
       ExtCall.saveInterviewSession (report_of envA.now sDone fb2) ∈ (generate_final_report_aux envA sDone).1) ∧
    (envA.hasSheets = true →
       ExtCall.exportInterview (report_of envA.now sDone fb2) ∈ (generate_final_report_aux envA sDone).1) :=
  C10_feedback_merge_last envA sDone fb2 "summary" (Val.str "fb") rfl
    (by decide) (by decide) (by decide) rfl
